import Mathlib

/-!
# Verification of the client-side session/authentication contract

Shallow embedding of the storage, authentication and timer logic of the
administrative-dashboard front end:

* `src/frontend/src/utils/api.js` — the axios request interceptor (bearer
  token attachment) and response interceptor (401-driven invalidation);
* the `AuthContext` module (`AuthProvider`) — `verifyToken`, `login`,
  `logout`, `updateUser` and the mount-time startup check;
* the `mockAuth` mock authentication object — credential/TOTP checking;
* the mount-scoped `setInterval` effects of the `Dashboard`,
  `SessionMonitor` and `LogsViewer` view components.

Browser `localStorage` is modelled as a total map from keys to
`Option String` (`none` = key absent).  JavaScript truthiness of a
string-or-null value (`if (token)` treats both `null` and `""` as false)
is modelled by `jsTruthy`.
-/

/-- Browser local storage: a total map from string keys to optionally
present string values (`none` means the key is absent). -/
def Storage : Type := String → Option String

/-- Models `localStorage.getItem(k)`. -/
def getItem (k : String) (s : Storage) : Option String := s k

/-- Models `localStorage.setItem(k, v)`. -/
def setItem (k v : String) (s : Storage) : Storage :=
  fun k' => if k' = k then some v else s k'

/-- Models `localStorage.removeItem(k)`. -/
def removeItem (k : String) (s : Storage) : Storage :=
  fun k' => if k' = k then none else s k'

/-- JavaScript truthiness of a string-or-null value: `null` and the empty
string are falsy, every other string is truthy. -/
def jsTruthy : Option String → Bool
  | none => false
  | some s => !(s = "")

/-- Browser-global state seen by the axios interceptors: local storage plus
`window.location.href`. -/
structure BrowserState where
  storage : Storage
  location : String

/-- A rejected API response as seen by the axios response interceptor:
the endpoint that was called and `error.response?.status`
(`none` models a network failure with no response at all). -/
structure ApiError where
  endpoint : String
  status : Option Nat

/-- The error branch of the axios response interceptor in
`src/frontend/src/utils/api.js` (lines 30–43): on status 401 it removes
the `authToken` and `userData` keys and assigns
`window.location.href = '/login'`; every other error leaves the browser
state untouched (the rejection is simply propagated). -/
def responseInterceptorOnError (e : ApiError) (b : BrowserState) : BrowserState :=
  if e.status = some 401 then
    { storage := removeItem "userData" (removeItem "authToken" b.storage),
      location := "/login" }
  else b

/-- A user profile as returned by the backend (`GET /auth/me` /
`POST /auth/login`'s `user` field). -/
structure UserRec where
  username : String
  role : String
  totpEnabled : Bool
  deriving DecidableEq, Repr

/-- The value held by React's `user` state in `AuthProvider`: either a full
backend profile, or the `{ username }` fallback object built by `login`
when the backend response carries no `user` field. -/
inductive UserObj where
  | profile (u : UserRec)
  | usernameOnly (name : String)
  deriving DecidableEq, Repr

/-- Models `JSON.stringify` of a full backend user profile. -/
def jsonStringifyUser (u : UserRec) : String :=
  "\x7b\"username\":\"" ++ u.username ++ "\",\"role\":\"" ++ u.role ++
    "\",\"totpEnabled\":" ++ (if u.totpEnabled then "true" else "false") ++ "\x7d"

/-- Models `JSON.stringify(response.user || \x7b username \x7d)`: the string written to
the `userData` key by `AuthProvider.login`. -/
def userDataString (respUser : Option UserRec) (username : String) : String :=
  match respUser with
  | some u => jsonStringifyUser u
  | none => "\x7b\"username\":\"" ++ username ++ "\"\x7d"

/-- The React state of `AuthProvider` together with the browser storage it
reads and writes. -/
structure AuthState where
  isAuthenticated : Bool
  user : Option UserObj
  loading : Bool
  storage : Storage

/-- Embeds `verifyToken` from the `AuthContext` module (lines 32–46): it awaits
`authAPI.getCurrentUser()`; on success it stores the profile and marks the
state authenticated; on ANY error (the `catch` does not look at the error)
it removes both storage keys and resets the in-memory state.  The backend
outcome is passed in explicitly. -/
def verifyToken (result : Except ApiError UserRec) (st : AuthState) : AuthState :=
  match result with
  | .ok userData =>
      { st with user := some (.profile userData), isAuthenticated := true,
                loading := false }
  | .error _ =>
      { st with
          storage := removeItem "userData" (removeItem "authToken" st.storage),
          isAuthenticated := false, user := none, loading := false }

/-- The mount-time effect of `AuthProvider` (lines 20–30): if a token is
present (JS-truthy) under `authToken` it runs `verifyToken`, otherwise it
only clears the loading flag. -/
def AuthProvider_mount (result : Except ApiError UserRec) (st : AuthState) : AuthState :=
  if jsTruthy (getItem "authToken" st.storage) then verifyToken result st
  else { st with loading := false }

/-- Embeds `logout` from the `AuthContext` module (lines 82–88): resets the
in-memory flag and user, removes both storage keys (in source order:
`authToken` then `userData`), and shows a toast (a pure UI side effect,
not part of the state). It is a total function — it always succeeds. -/
def AuthProvider_logout (st : AuthState) : AuthState :=
  { st with isAuthenticated := false, user := none,
            storage := removeItem "userData" (removeItem "authToken" st.storage) }

/-- The error payload of a rejected `POST /auth/login` call as inspected by
`AuthProvider.login`: `error.response?.status`, the truthiness of
`error.response?.headers?.['x-require-totp']`, and
`error.response?.data?.detail`. -/
structure LoginError where
  status : Option Nat
  hasRequireTotpHeader : Bool
  detail : Option String

/-- The success payload of `POST /auth/login` as read by
`AuthProvider.login`: `response.access_token` and `response.user`. -/
structure LoginSuccess where
  access_token : String
  user : Option UserRec

/-- The object returned by `AuthProvider.login` to its caller:
`{ success: true }` or `{ success: false, error, requiresTOTP }`. -/
structure LoginResult where
  success : Bool
  error : Option String := none
  requiresTOTP : Bool := false
  deriving DecidableEq, Repr

/-- Embeds `login` from the `AuthContext` module (lines 48–80).  On a resolved
call it stores the profile and token (`authToken` then `userData`, source
order of lines 56–57) and returns `{ success: true }`.  On a rejected call
it distinguishes the status-400 + `x-require-totp`-header response
(second factor required) from every other failure, whose message is
`detail` when present and `'Authentication failed'` otherwise; the catch
branch never touches storage or the authenticated flag.  `setLoading` ends
false on every path (the `finally`). -/
def AuthProvider_login (resp : Except LoginError LoginSuccess) (username : String)
    (st : AuthState) : LoginResult × AuthState :=
  match resp with
  | .ok r =>
      let userObj : UserObj :=
        match r.user with
        | some u => .profile u
        | none => .usernameOnly username
      ({ success := true },
       { st with user := some userObj, isAuthenticated := true,
                 storage := setItem "userData" (userDataString r.user username)
                              (setItem "authToken" r.access_token st.storage),
                 loading := false })
  | .error e =>
      let requiresTOTP : Bool := (e.status = some 400) && e.hasRequireTotpHeader
      let errorMessage : String :=
        if (e.status = some 400) && e.hasRequireTotpHeader then
          "Please enter your 2FA code"
        else
          match e.detail with
          | some d => d
          | none => "Authentication failed"
      ({ success := false, error := some errorMessage, requiresTOTP := requiresTOTP },
       { st with loading := false })

/-- An outbound request as seen by the axios request interceptor: the url
and the `Authorization` header slot (`none` = header absent). -/
structure RequestConfig where
  url : String
  authorization : Option String
  deriving DecidableEq, Repr

/-- The axios request interceptor in `src/frontend/src/utils/api.js`
(lines 15–27): it reads `localStorage.getItem('authToken')` and, only when
the value is JS-truthy, sets `config.headers.Authorization` to
`` `Bearer ${token}` ``; otherwise the config passes through unchanged. -/
def requestInterceptor (s : Storage) (config : RequestConfig) : RequestConfig :=
  match getItem "authToken" s with
  | some token =>
      if token = "" then config
      else { config with authorization := some ("Bearer " ++ token) }
  | none => config

/-- The storage-writing operations of the program, one constructor per
write site found in the source: the 401 branch of the response
interceptor (`api.js` 37–38), the `verifyToken` catch (AuthContext 39–40),
the `login` success path (AuthContext 56–57), `logout` (AuthContext
85–86), and the `updateUser` success path (AuthContext 94). -/
inductive StorageOp where
  | interceptor401
  | verifyTokenCatch
  | loginSuccess (token : String) (userJson : String)
  | logoutOp
  | updateUserOk (userJson : String)

/-- The effect of each storage-writing operation on local storage, in the
source's key order. -/
def StorageOp.applyOp : StorageOp → Storage → Storage
  | .interceptor401, s => removeItem "userData" (removeItem "authToken" s)
  | .verifyTokenCatch, s => removeItem "userData" (removeItem "authToken" s)
  | .loginSuccess token userJson, s =>
      setItem "userData" userJson (setItem "authToken" token s)
  | .logoutOp, s => removeItem "userData" (removeItem "authToken" s)
  | .updateUserOk userJson, s => setItem "userData" userJson s

/-- A user of the `mockAuth.users` fixture (mock-data module, lines
67–77). -/
structure MockUser where
  id : Nat
  username : String
  password : String
  role : String
  email : String
  lastLogin : String
  totpEnabled : Bool
  deriving DecidableEq, Repr

/-- The user object returned by a successful `mockAuth.login`:
`{ ...user, password: undefined }`, i.e. the fixture user with the
password field blanked out. -/
structure MockUserOut where
  id : Nat
  username : String
  password : Option String
  role : String
  email : String
  lastLogin : String
  totpEnabled : Bool
  deriving DecidableEq, Repr

/-- Models the spread `...user` with `password: undefined`. -/
def MockUser.stripPassword (u : MockUser) : MockUserOut :=
  { id := u.id, username := u.username, password := none, role := u.role,
    email := u.email, lastLogin := u.lastLogin, totpEnabled := u.totpEnabled }

/-- The result object of `mockAuth.login`; absent JS fields default to
`none`/`false`. -/
structure MockLoginResult where
  success : Bool
  error : Option String := none
  requiresTOTP : Bool := false
  user : Option MockUserOut := none
  token : Option String := none
  deriving DecidableEq, Repr

/-- The `mockAuth.users` fixture: a single administrator with TOTP
enabled.  The fixture's `lastLogin: new Date().toISOString()` is the
load-time clock value, passed in as `nowIso`. -/
def mockAuth_users (nowIso : String) : List MockUser :=
  [{ id := 1, username := "admin", password := "admin123",
     role := "administrator", email := "admin@rdpstealth.com",
     lastLogin := nowIso, totpEnabled := true }]

/-- Embeds `mockAuth.login` (mock-data module, lines 79–104).  `totpCode` is
`none` for JS `null`; the source's `!totpCode` is JS falsiness, so the
empty string also counts as "no code" (`jsTruthy`).  `nowMs` is the
`Date.now()` value used to mint the mock token; the 1-second simulated
delay has no effect on the result. -/
def mockAuth_login (nowIso : String) (nowMs : Nat) (username password : String)
    (totpCode : Option String) : MockLoginResult :=
  match (mockAuth_users nowIso).find? (fun u => u.username = username) with
  | none => { success := false, error := some "Invalid credentials" }
  | some user =>
      if user.password ≠ password then
        { success := false, error := some "Invalid credentials" }
      else if user.totpEnabled && !(jsTruthy totpCode) then
        { success := false, requiresTOTP := true }
      else if user.totpEnabled && totpCode ≠ some "123456" then
        { success := false, error := some "Invalid TOTP code" }
      else
        { success := true, user := some user.stripPassword,
          token := some ("mock_jwt_token_" ++ toString nowMs) }

/-- Modelled from the spec: the backend `POST /auth/login` endpoint, which
is not part of this repository (spec §6 lists it as an external
collaborator).  Per spec §6 and the §8 scenarios, the credential triple
admin/admin123/123456 succeeds and returns an access token and the user
profile; admin/admin123 with no code is rejected with status 400 and the
`x-require-totp` response header; any other credentials are rejected with
a detail message `'Invalid credentials'`. -/
def specBackend_login (username password : String) (totpCode : Option String) :
    Except LoginError LoginSuccess :=
  if username = "admin" ∧ password = "admin123" then
    if totpCode = some "123456" then
      .ok { access_token := "backend-access-token",
            user := some { username := "admin", role := "administrator",
                           totpEnabled := true } }
    else if totpCode = none then
      .error { status := some 400, hasRequireTotpHeader := true,
               detail := some "2FA code required" }
    else
      .error { status := some 401, hasRequireTotpHeader := false,
               detail := some "Invalid TOTP code" }
  else
    .error { status := some 401, hasRequireTotpHeader := false,
             detail := some "Invalid credentials" }

/-- The browser's interval-timer table: the next fresh timer id and the
list of live interval timers as (id, period-in-ms) pairs. -/
structure TimerWorld where
  nextId : Nat
  live : List (Nat × Nat)
  deriving DecidableEq, Repr

/-- Models `setInterval(fn, periodMs)`: allocates a fresh timer id and registers
the interval; returns the id. -/
def setIntervalW (periodMs : Nat) (w : TimerWorld) : Nat × TimerWorld :=
  (w.nextId, { nextId := w.nextId + 1, live := (w.nextId, periodMs) :: w.live })

/-- Models `clearInterval(id)`: deregisters the timer with the given id. -/
def clearIntervalW (id : Nat) (w : TimerWorld) : TimerWorld :=
  { w with live := w.live.filter (fun e => e.1 ≠ id) }

/-- The outcome of running a component's mount-time `useEffect`: the timer
world after the effect body ran, and the cleanup function React will call
when the view is hidden (unmounted). -/
structure EffectResult where
  world : TimerWorld
  cleanup : TimerWorld → TimerWorld

/-- A timer world is well formed when every live id was allocated before
`nextId`. -/
def TimerWorld.wf (w : TimerWorld) : Prop :=
  ∀ e ∈ w.live, e.1 < w.nextId

/-- The mount effect of `Dashboard` (Dashboard.js lines 53–61): starts a
30000 ms polling interval and returns `() => clearInterval(interval)`. -/
def Dashboard_mount (w : TimerWorld) : EffectResult :=
  let p := setIntervalW 30000 w
  { world := p.2, cleanup := clearIntervalW p.1 }

/-- The mount effect of `SessionMonitor` (lines 28–37): starts a 2000 ms
bandwidth-jitter interval and returns `() => clearInterval(interval)`. -/
def SessionMonitor_mount (w : TimerWorld) : EffectResult :=
  let p := setIntervalW 2000 w
  { world := p.2, cleanup := clearIntervalW p.1 }

/-- The mount effect of `LogsViewer` (LogsViewer.js lines 39–61): when
auto-refresh is off the effect returns before starting a timer (and
installs no cleanup); otherwise it starts a 5000 ms interval and returns
`() => clearInterval(interval)`. -/
def LogsViewer_mount (isAutoRefresh : Bool) (w : TimerWorld) : EffectResult :=
  if isAutoRefresh then
    let p := setIntervalW 5000 w
    { world := p.2, cleanup := clearIntervalW p.1 }
  else
    { world := w, cleanup := fun w' => w' }

/-- Runs the response interceptor's error branch over a sequence of
rejected responses, in the order the single-threaded event loop delivers
them. -/
def processErrors : List ApiError → BrowserState → BrowserState
  | [], b => b
  | e :: es, b => processErrors es (responseInterceptorOnError e b)

/-- Counts the steps at which the stored session is actually cleared: the
`authToken` key goes from present to absent (spec §3: a session with a
token is what makes the client authenticated; both keys are removed
together whenever this event fires). -/
def clearEvents : List ApiError → BrowserState → Nat
  | [], _ => 0
  | e :: es, b =>
      let b' := responseInterceptorOnError e b
      (if (b.storage "authToken").isSome ∧ b'.storage "authToken" = none then 1 else 0)
        + clearEvents es b'

/-- Counts the steps at which the browser location actually changes (the
only assignment the interceptor makes is to `'/login'`, so each counted
event is a navigation to the login view). -/
def navEvents : List ApiError → BrowserState → Nat
  | [], _ => 0
  | e :: es, b =>
      let b' := responseInterceptorOnError e b
      (if b.location ≠ b'.location then 1 else 0) + navEvents es b'

/-! ## Helper lemmas -/

/-- Removing `authToken` then `userData` leaves every other key alone. -/
lemma removeBoth_other (σ : Storage) (k : String)
    (h1 : k ≠ "authToken") (h2 : k ≠ "userData") :
    removeItem "userData" (removeItem "authToken" σ) k = σ k := by
  simp [removeItem, h1, h2]

/-- Removing both session keys is idempotent on the storage map. -/
lemma removeBoth_idem (σ : Storage) :
    removeItem "userData" (removeItem "authToken"
      (removeItem "userData" (removeItem "authToken" σ))) =
    removeItem "userData" (removeItem "authToken" σ) := by
  funext k
  by_cases h1 : k = "userData" <;> by_cases h2 : k = "authToken" <;>
    simp [removeItem, h1, h2]

/-! ## C4 -/

/-- C4: `logout` always succeeds (it is a total function), clears both
persisted local-storage keys and the in-memory authenticated flag and
user, and is idempotent: from every starting state, running it twice ends
in exactly the state reached by running it once. -/
theorem logout_clears_both_keys_and_is_idempotent (st : AuthState) :
    (AuthProvider_logout st).storage "authToken" = none ∧
    (AuthProvider_logout st).storage "userData" = none ∧
    (AuthProvider_logout st).isAuthenticated = false ∧
    (AuthProvider_logout st).user = none ∧
    AuthProvider_logout (AuthProvider_logout st) = AuthProvider_logout st := by
  obtain ⟨a, u, l, σ⟩ := st
  refine ⟨rfl, rfl, rfl, rfl, ?_⟩
  show AuthState.mk false none l _ = AuthState.mk false none l _
  exact congrArg (AuthState.mk false none l) (removeBoth_idem σ)

/-! ## C8 -/

/-- C8: on application start with a (JS-truthy) token in storage, if the
token-verification call fails for ANY reason — the error's status is
arbitrary, covering network failures (`status = none`) as well as every
HTTP status — both persisted keys are cleared and the state becomes
unauthenticated; and the stored token survives startup exactly when the
profile fetch succeeds (the success branch leaves storage untouched and
authenticates). -/
theorem startup_clears_on_any_verify_failure (st : AuthState) (t : String)
    (htok : st.storage "authToken" = some t) (hne : t ≠ "") :
    ((AuthProvider_mount (.error ⟨"/auth/me", none⟩) st).storage "authToken" = none ∧
     (∀ e : ApiError,
       (AuthProvider_mount (.error e) st).storage "authToken" = none ∧
       (AuthProvider_mount (.error e) st).storage "userData" = none ∧
       (AuthProvider_mount (.error e) st).isAuthenticated = false ∧
       (AuthProvider_mount (.error e) st).user = none)) ∧
    (∀ u : UserRec,
      (AuthProvider_mount (.ok u) st).storage = st.storage ∧
      (AuthProvider_mount (.ok u) st).isAuthenticated = true) := by
  have htruthy : jsTruthy (getItem "authToken" st.storage) = true := by
    simp [getItem, htok, jsTruthy, hne]
  constructor
  · constructor
    · simp [AuthProvider_mount, htruthy, verifyToken, removeItem]
    · intro e
      refine ⟨?_, ?_, ?_, ?_⟩ <;>
        simp [AuthProvider_mount, htruthy, verifyToken, removeItem]
  · intro u
    refine ⟨?_, ?_⟩ <;> simp [AuthProvider_mount, htruthy, verifyToken]

/-- A concrete storage map holding a session: a token and a serialized
user profile, nothing else. -/
def s0c : Storage := fun k =>
  if k = "authToken" then some "tok"
  else if k = "userData" then some "\x7b\"username\":\"admin\"\x7d"
  else none

/-- A concrete authenticated provider state over `s0c`. -/
def st0c : AuthState :=
  { isAuthenticated := true,
    user := some (.profile { username := "admin", role := "administrator", totpEnabled := true }),
    loading := false, storage := s0c }

/-- A concrete unauthenticated provider state with empty storage. -/
def stEmpty : AuthState :=
  { isAuthenticated := false, user := none, loading := true, storage := fun _ => none }

/-- Witness for C8 at a concrete state: the startup verification fails
with a network error (no response at all) and both keys end cleared. -/
theorem startup_clears_on_any_verify_failure_holds :
    st0c.storage "authToken" = some "tok" ∧ "tok" ≠ "" ∧
    ((AuthProvider_mount (.error ⟨"/auth/me", none⟩) st0c).storage "authToken" = none ∧
     (AuthProvider_mount (.error ⟨"/auth/me", none⟩) st0c).storage "userData" = none) :=
  ⟨rfl, by decide,
   (startup_clears_on_any_verify_failure st0c "tok" rfl (by decide)).1.2 ⟨"/auth/me", none⟩ |>.1,
   (startup_clears_on_any_verify_failure st0c "tok" rfl (by decide)).1.2 ⟨"/auth/me", none⟩ |>.2.1⟩

/-! ## C2 -/

/-- C2: a login attempt by a user who requires a second factor, with no
code supplied, yields a distinguished "second factor required" result and
establishes no session.  For `AuthProvider.login` this is the rejected
call with status 400 and the `x-require-totp` header: the result carries
`requiresTOTP: true` with the re-prompt message (not the generic failure
message), the authenticated flag stays false and storage is untouched.
For `mockAuth.login` it is any attempt whose username/password match a
fixture user with TOTP enabled and whose code is JS-falsy: the result is
exactly `{ success: false, requiresTOTP: true }` (a pure value; `mockAuth`
never writes storage). -/
theorem login_without_second_factor_establishes_no_session
    (e : LoginError) (username : String) (st : AuthState)
    (h400 : e.status = some 400) (hhdr : e.hasRequireTotpHeader = true)
    (hauth : st.isAuthenticated = false) :
    ((AuthProvider_login (.error e) username st).1.requiresTOTP = true ∧
     (AuthProvider_login (.error e) username st).1.success = false ∧
     (AuthProvider_login (.error e) username st).1.error = some "Please enter your 2FA code" ∧
     (AuthProvider_login (.error e) username st).2.isAuthenticated = false ∧
     (AuthProvider_login (.error e) username st).2.storage = st.storage) ∧
    (∀ (nowIso : String) (nowMs : Nat) (name pw : String) (code : Option String),
      (∃ u ∈ mockAuth_users nowIso, u.username = name ∧ u.password = pw ∧ u.totpEnabled = true) →
      jsTruthy code = false →
      mockAuth_login nowIso nowMs name pw code =
        { success := false, requiresTOTP := true }) := by
  constructor
  · refine ⟨?_, ?_, ?_, ?_, ?_⟩ <;> simp [AuthProvider_login, h400, hhdr, hauth]
  · rintro nowIso nowMs name pw code ⟨u, hu, hname, hpw, htotp⟩ hcode
    simp only [mockAuth_users, List.mem_singleton] at hu
    subst hu
    simp only at hname hpw htotp
    subst hname hpw
    simp [mockAuth_login, mockAuth_users, List.find?, htotp, hcode]

/-- Witness for C2: the concrete 400 + `x-require-totp` rejection against
the unauthenticated empty state, and the concrete `mockAuth` attempt
admin/admin123 with no code. -/
theorem login_without_second_factor_establishes_no_session_holds :
    ((⟨some 400, true, none⟩ : LoginError).status = some 400 ∧
     stEmpty.isAuthenticated = false) ∧
    ((AuthProvider_login (.error ⟨some 400, true, none⟩) "admin" stEmpty).1.requiresTOTP = true ∧
     (AuthProvider_login (.error ⟨some 400, true, none⟩) "admin" stEmpty).2.isAuthenticated = false) ∧
    mockAuth_login "2024-01-01" 0 "admin" "admin123" none =
      { success := false, requiresTOTP := true } :=
  ⟨⟨rfl, rfl⟩,
   ⟨(login_without_second_factor_establishes_no_session
       ⟨some 400, true, none⟩ "admin" stEmpty rfl rfl rfl).1.1,
    (login_without_second_factor_establishes_no_session
       ⟨some 400, true, none⟩ "admin" stEmpty rfl rfl rfl).1.2.2.2.1⟩,
   (login_without_second_factor_establishes_no_session
       ⟨some 400, true, none⟩ "admin" stEmpty rfl rfl rfl).2 "2024-01-01" 0
       "admin" "admin123" none
       ⟨{ id := 1, username := "admin", password := "admin123",
          role := "administrator", email := "admin@rdpstealth.com",
          lastLogin := "2024-01-01", totpEnabled := true },
        by simp [mockAuth_users], rfl, rfl, rfl⟩ rfl⟩

/-! ## C3 -/

/-- C3: the three login scenarios.  (i) `mockAuth.login("admin","admin123")`
with no code returns the second-factor-required result.  (ii) With code
`"123456"` it returns a success result carrying the minted token; and the
Session Store `login` run against the (spec-modelled) backend on the same
triple returns `{ success: true }` and persists the access token under the
`authToken` key.  (iii) `mockAuth.login("admin","wrongpass")` returns
`{ success: false, error: 'Invalid credentials' }`. -/
theorem login_three_scenarios :
    (∀ (nowIso : String) (nowMs : Nat),
      mockAuth_login nowIso nowMs "admin" "admin123" none =
        { success := false, requiresTOTP := true }) ∧
    (∀ (nowIso : String) (nowMs : Nat),
      (mockAuth_login nowIso nowMs "admin" "admin123" (some "123456")).success = true ∧
      (mockAuth_login nowIso nowMs "admin" "admin123" (some "123456")).token =
        some ("mock_jwt_token_" ++ toString nowMs)) ∧
    (∀ st : AuthState,
      (AuthProvider_login (specBackend_login "admin" "admin123" (some "123456")) "admin" st).1 =
        { success := true } ∧
      (AuthProvider_login (specBackend_login "admin" "admin123" (some "123456")) "admin" st).2.storage
        "authToken" = some "backend-access-token" ∧
      (AuthProvider_login (specBackend_login "admin" "admin123" (some "123456")) "admin" st).2.isAuthenticated
        = true) ∧
    (∀ (nowIso : String) (nowMs : Nat) (code : Option String),
      mockAuth_login nowIso nowMs "admin" "wrongpass" code =
        { success := false, error := some "Invalid credentials" }) := by
  exact ⟨fun nowIso nowMs => rfl, fun nowIso nowMs => ⟨rfl, rfl⟩,
         fun st => ⟨rfl, rfl, rfl⟩, fun nowIso nowMs code => rfl⟩

/-! ## C5 -/

/-- C5: persisted client-side state is limited to the two keys `authToken`
and `userData` — every storage-writing operation of the program leaves all
other keys untouched — and the two keys are only ever cleared together:
no operation turns one key from present to absent while leaving the other
present, and an operation unconditionally removes `authToken` exactly when
it unconditionally removes `userData`. -/
theorem storage_ops_only_touch_both_session_keys (op : StorageOp) (s : Storage) :
    (∀ k, k ≠ "authToken" → k ≠ "userData" → op.applyOp s k = s k) ∧
    ((s "authToken" ≠ none ∧ op.applyOp s "authToken" = none) →
      op.applyOp s "userData" = none) ∧
    ((s "userData" ≠ none ∧ op.applyOp s "userData" = none) →
      op.applyOp s "authToken" = none) ∧
    ((∀ σ : Storage, op.applyOp σ "authToken" = none) ↔
      (∀ σ : Storage, op.applyOp σ "userData" = none)) := by
  cases op with
  | interceptor401 =>
      refine ⟨fun k h1 h2 => removeBoth_other s k h1 h2, fun _ => rfl, fun _ => rfl, ?_⟩
      exact ⟨fun _ σ => rfl, fun _ σ => rfl⟩
  | verifyTokenCatch =>
      refine ⟨fun k h1 h2 => removeBoth_other s k h1 h2, fun _ => rfl, fun _ => rfl, ?_⟩
      exact ⟨fun _ σ => rfl, fun _ σ => rfl⟩
  | logoutOp =>
      refine ⟨fun k h1 h2 => removeBoth_other s k h1 h2, fun _ => rfl, fun _ => rfl, ?_⟩
      exact ⟨fun _ σ => rfl, fun _ σ => rfl⟩
  | loginSuccess token userJson =>
      refine ⟨fun k h1 h2 => by simp [StorageOp.applyOp, setItem, h1, h2], ?_, ?_, ?_⟩
      · rintro ⟨-, h⟩
        simp [StorageOp.applyOp, setItem] at h
      · rintro ⟨-, h⟩
        simp [StorageOp.applyOp, setItem] at h
      · constructor
        · intro h
          have := h (fun _ => none)
          simp [StorageOp.applyOp, setItem] at this
        · intro h
          have := h (fun _ => none)
          simp [StorageOp.applyOp, setItem] at this
  | updateUserOk userJson =>
      refine ⟨fun k h1 h2 => by simp [StorageOp.applyOp, setItem, h1, h2], ?_, ?_, ?_⟩
      · rintro ⟨hpre, h⟩
        simp [StorageOp.applyOp, setItem] at h hpre
        exact absurd h hpre
      · rintro ⟨-, h⟩
        simp [StorageOp.applyOp, setItem] at h
      · constructor
        · intro h
          have := h (fun _ => some "x")
          simp [StorageOp.applyOp, setItem] at this
        · intro h
          have := h (fun _ => none)
          simp [StorageOp.applyOp, setItem] at this

/-- Witness for C5: `logout` on the concrete populated storage clears both
keys and leaves an unrelated key alone. -/
theorem storage_ops_only_touch_both_session_keys_holds :
    (s0c "authToken" ≠ none ∧ StorageOp.logoutOp.applyOp s0c "authToken" = none) ∧
    StorageOp.logoutOp.applyOp s0c "userData" = none ∧
    StorageOp.logoutOp.applyOp s0c "theme" = s0c "theme" :=
  ⟨⟨by decide, rfl⟩,
   (storage_ops_only_touch_both_session_keys .logoutOp s0c).2.1 ⟨by decide, rfl⟩,
   (storage_ops_only_touch_both_session_keys .logoutOp s0c).1 "theme" (by decide) (by decide)⟩

/-! ## C6 -/

/-- C6 counterexample: a request issued while no token is stored (for
instance before any login) passes through the request interceptor with NO
`Authorization` header at all, contradicting the claim that every
outbound request carries a `Bearer` header. -/
theorem request_without_stored_token_has_no_auth_header :
    (requestInterceptor (fun _ => none)
      { url := "/dashboard/stats", authorization := none }).authorization = none := rfl

/-- C6 (amended): whenever a non-empty token is stored under `authToken`,
every outbound request passes the interceptor carrying
`Authorization: Bearer <token>` for that stored token; when the stored
value is JS-falsy (absent or empty) the config passes through unchanged,
with no header attached. -/
theorem request_carries_bearer_of_stored_token
    (s : Storage) (config : RequestConfig) (t : String)
    (htok : s "authToken" = some t) (hne : t ≠ "") :
    (requestInterceptor s config).authorization = some ("Bearer " ++ t) ∧
    (∀ s' : Storage, jsTruthy (getItem "authToken" s') = false →
      requestInterceptor s' config = config) := by
  constructor
  · simp [requestInterceptor, getItem, htok, hne]
  · intro s' hfalsy
    unfold requestInterceptor
    cases hv : getItem "authToken" s' with
    | none => rfl
    | some v =>
        rw [hv] at hfalsy
        simp [jsTruthy] at hfalsy
        simp [hfalsy]

/-- Witness for C6 (amended): the concrete populated storage yields
`Bearer tok`, and the empty storage leaves the request unchanged. -/
theorem request_carries_bearer_of_stored_token_holds :
    s0c "authToken" = some "tok" ∧
    (requestInterceptor s0c { url := "/logs", authorization := none }).authorization =
      some ("Bearer " ++ "tok") ∧
    requestInterceptor (fun _ => none) { url := "/logs", authorization := none } =
      { url := "/logs", authorization := none } :=
  ⟨rfl,
   (request_carries_bearer_of_stored_token s0c { url := "/logs", authorization := none }
      "tok" rfl (by decide)).1,
   (request_carries_bearer_of_stored_token s0c { url := "/logs", authorization := none }
      "tok" rfl (by decide)).2 (fun _ => none) rfl⟩

/-! ## C9 and C10 -/

/-- Reduction of `mockAuth_login` when no fixture user has the given
username. -/
lemma mockAuth_login_none {nowIso : String} {nowMs : Nat}
    {username password : String} {code : Option String}
    (hf : (mockAuth_users nowIso).find? (fun u => u.username = username) = none) :
    mockAuth_login nowIso nowMs username password code =
      { success := false, error := some "Invalid credentials" } := by
  unfold mockAuth_login; rw [hf]

/-- Reduction of `mockAuth_login` when the username lookup finds `u`. -/
lemma mockAuth_login_some {nowIso : String} {nowMs : Nat}
    {username password : String} {code : Option String} {u : MockUser}
    (hf : (mockAuth_users nowIso).find? (fun v => v.username = username) = some u) :
    mockAuth_login nowIso nowMs username password code =
      (if u.password ≠ password then
        { success := false, error := some "Invalid credentials" }
      else if u.totpEnabled && !(jsTruthy code) then
        { success := false, requiresTOTP := true }
      else if u.totpEnabled && code ≠ some "123456" then
        { success := false, error := some "Invalid TOTP code" }
      else
        { success := true, user := some u.stripPassword,
          token := some ("mock_jwt_token_" ++ toString nowMs) }) := by
  unfold mockAuth_login; rw [hf]

/-- C9: `mockAuth.login` checks credentials before the second factor: if
no fixture user has the given username with a matching password — the
username is unknown or the password is wrong — the result is exactly
`{ success: false, error: 'Invalid credentials' }` (in particular its
`requiresTOTP` field is false), even though the fixture user has TOTP
enabled. -/
theorem mockAuth_credentials_checked_before_totp
    (nowIso : String) (nowMs : Nat) (username password : String) (code : Option String)
    (h : ∀ u ∈ mockAuth_users nowIso, u.username = username → u.password ≠ password) :
    mockAuth_login nowIso nowMs username password code =
      { success := false, error := some "Invalid credentials" } := by
  cases hf : (mockAuth_users nowIso).find? (fun u => u.username = username) with
  | none => exact mockAuth_login_none hf
  | some u =>
      have hu : u ∈ mockAuth_users nowIso := List.mem_of_find?_eq_some hf
      have hname : u.username = username := by
        have := List.find?_some hf
        simpa using this
      rw [mockAuth_login_some hf, if_pos (h u hu hname)]

/-- Witness for C9: a wrong password for the (TOTP-enabled) admin user,
with a syntactically valid code supplied, still yields the invalid-
credentials failure and no second-factor prompt. -/
theorem mockAuth_credentials_checked_before_totp_holds :
    (∀ u ∈ mockAuth_users "2024-01-01", u.username = "admin" → u.password ≠ "hunter2") ∧
    mockAuth_login "2024-01-01" 0 "admin" "hunter2" (some "123456") =
      { success := false, error := some "Invalid credentials" } :=
  ⟨by decide,
   mockAuth_credentials_checked_before_totp "2024-01-01" 0 "admin" "hunter2"
     (some "123456") (by decide)⟩

/-- C10: every successful `mockAuth.login` returns a user object whose
password field is blanked (`{ ...user, password: undefined }`), so the
returned snapshot never contains the password. -/
theorem mockAuth_success_strips_password
    (nowIso : String) (nowMs : Nat) (username password : String) (code : Option String)
    (h : (mockAuth_login nowIso nowMs username password code).success = true) :
    ∃ u, (mockAuth_login nowIso nowMs username password code).user = some u ∧
      u.password = none := by
  cases hf : (mockAuth_users nowIso).find? (fun u => u.username = username) with
  | none => rw [mockAuth_login_none hf] at h; simp at h
  | some u =>
      rw [mockAuth_login_some hf] at h ⊢
      by_cases h1 : u.password ≠ password
      · rw [if_pos h1] at h; simp at h
      · rw [if_neg h1] at h ⊢
        by_cases h2 : (u.totpEnabled && !(jsTruthy code)) = true
        · rw [if_pos h2] at h; simp at h
        · rw [if_neg h2] at h ⊢
          by_cases h3 : (u.totpEnabled && code ≠ some "123456") = true
          · rw [if_pos h3] at h; simp at h
          · rw [if_neg h3]
            exact ⟨u.stripPassword, rfl, rfl⟩

/-- Witness for C10: the successful concrete login admin/admin123/123456
returns a user snapshot with no password. -/
theorem mockAuth_success_strips_password_holds :
    (mockAuth_login "2024-01-01" 7 "admin" "admin123" (some "123456")).success = true ∧
    ∃ u, (mockAuth_login "2024-01-01" 7 "admin" "admin123" (some "123456")).user = some u ∧
      u.password = none :=
  ⟨rfl, mockAuth_success_strips_password "2024-01-01" 7 "admin" "admin123"
          (some "123456") rfl⟩

/-! ## C1 -/

/-- Once the session is cleared and the browser is on `/login`, further
rejected responses — 401 or not — change nothing and contribute no
further clear or navigation events. -/
lemma processErrors_after_clear (es : List ApiError) :
    ∀ b : BrowserState,
    b.storage "authToken" = none → b.storage "userData" = none →
    b.location = "/login" →
    (processErrors es b).storage "authToken" = none ∧
    (processErrors es b).storage "userData" = none ∧
    (processErrors es b).location = "/login" ∧
    clearEvents es b = 0 ∧ navEvents es b = 0 := by
  induction es with
  | nil => exact fun b ht hu hl => ⟨ht, hu, hl, rfl, rfl⟩
  | cons e es ih =>
      intro b ht hu hl
      by_cases h : e.status = some 401
      · have hb' : responseInterceptorOnError e b =
            ⟨removeItem "userData" (removeItem "authToken" b.storage), "/login"⟩ := by
          rw [responseInterceptorOnError, if_pos h]
        obtain ⟨a1, a2, a3, a4, a5⟩ :=
          ih (responseInterceptorOnError e b) (by rw [hb']; rfl) (by rw [hb']; rfl)
            (by rw [hb'])
        refine ⟨a1, a2, a3, ?_, ?_⟩
        · simp only [clearEvents]
          rw [a4, ht]
          simp
        · simp only [navEvents]
          rw [a5, hl, hb']
          simp
      · have hb' : responseInterceptorOnError e b = b := by
          rw [responseInterceptorOnError, if_neg h]
        obtain ⟨a1, a2, a3, a4, a5⟩ := ih (responseInterceptorOnError e b)
          (by rw [hb']; exact ht) (by rw [hb']; exact hu) (by rw [hb']; exact hl)
        refine ⟨a1, a2, a3, ?_, ?_⟩
        · simp only [clearEvents]
          rw [a4, ht]
          simp
        · simp only [navEvents]
          rw [a5, hb']
          simp

/-- Processing any rejected-response sequence containing a 401 from an
authenticated, non-login-page state ends with both keys cleared and the
location on `/login`, and the clearing and the navigation each happen at
exactly one step. -/
lemma processErrors_one_clear_one_nav (es : List ApiError) :
    ∀ (b : BrowserState) (t : String),
    b.storage "authToken" = some t → b.location ≠ "/login" →
    (∃ e ∈ es, e.status = some 401) →
    (processErrors es b).storage "authToken" = none ∧
    (processErrors es b).storage "userData" = none ∧
    (processErrors es b).location = "/login" ∧
    clearEvents es b = 1 ∧ navEvents es b = 1 := by
  induction es with
  | nil =>
      intro b t ht hl hex
      obtain ⟨e, he, -⟩ := hex
      exact absurd he (List.not_mem_nil e)
  | cons e es ih =>
      intro b t ht hl hex
      by_cases h : e.status = some 401
      · have hb' : responseInterceptorOnError e b =
            ⟨removeItem "userData" (removeItem "authToken" b.storage), "/login"⟩ := by
          rw [responseInterceptorOnError, if_pos h]
        obtain ⟨a1, a2, a3, a4, a5⟩ :=
          processErrors_after_clear es (responseInterceptorOnError e b)
            (by rw [hb']; rfl) (by rw [hb']; rfl) (by rw [hb'])
        refine ⟨a1, a2, a3, ?_, ?_⟩
        · simp only [clearEvents]
          rw [a4, ht]
          have hnone : (responseInterceptorOnError e b).storage "authToken" = none := by
            rw [hb']; rfl
          simp [hnone]
        · simp only [navEvents]
          rw [a5]
          have hloc : (responseInterceptorOnError e b).location = "/login" := by rw [hb']
          simp [hloc, hl]
      · have hb' : responseInterceptorOnError e b = b := by
          rw [responseInterceptorOnError, if_neg h]
        have hex' : ∃ e' ∈ es, e'.status = some 401 := by
          obtain ⟨e', he', h401⟩ := hex
          rcases List.mem_cons.mp he' with rfl | hmem
          · exact absurd h401 h
          · exact ⟨e', hmem, h401⟩
        obtain ⟨a1, a2, a3, a4, a5⟩ := ih b t ht hl hex'
        have e1 : processErrors es (responseInterceptorOnError e b) = processErrors es b := by
          rw [hb']
        refine ⟨by rw [processErrors, e1]; exact a1, by rw [processErrors, e1]; exact a2,
                by rw [processErrors, e1]; exact a3, ?_, ?_⟩
        · simp only [clearEvents]
          rw [hb', a4, ht]
          simp
        · simp only [navEvents]
          rw [hb', a5]
          simp

/-- C1: the response interceptor reacts to HTTP 401 on ANY endpoint by
clearing both session keys and redirecting to `/login`; and over any
sequence of rejected responses containing a 401 — in particular several
concurrent calls that all return 401 — the stored session transitions
from present to absent at exactly one step, and the browser location
changes (to `/login`) at exactly one step: clearing and navigation each
occur exactly once. -/
theorem response_401_clears_session_and_redirects_once
    (es : List ApiError) (b : BrowserState) (t : String)
    (htok : b.storage "authToken" = some t)
    (hloc : b.location ≠ "/login")
    (h401 : ∃ e ∈ es, e.status = some 401) :
    (∀ (e : ApiError) (b' : BrowserState), e.status = some 401 →
      (responseInterceptorOnError e b').storage "authToken" = none ∧
      (responseInterceptorOnError e b').storage "userData" = none ∧
      (responseInterceptorOnError e b').location = "/login") ∧
    (processErrors es b).storage "authToken" = none ∧
    (processErrors es b).storage "userData" = none ∧
    (processErrors es b).location = "/login" ∧
    clearEvents es b = 1 ∧ navEvents es b = 1 := by
  refine ⟨fun e b' h => ?_, processErrors_one_clear_one_nav es b t htok hloc h401⟩
  rw [responseInterceptorOnError, if_pos h]
  exact ⟨rfl, rfl, rfl⟩

/-- The concrete browser state for the C1 witness: a stored session, the
dashboard view. -/
def b0c : BrowserState := { storage := s0c, location := "/" }

/-- Three concurrent calls to three different endpoints, all rejected
with HTTP 401. -/
def es3c : List ApiError :=
  [⟨"/dashboard/stats", some 401⟩, ⟨"/files/list", some 401⟩, ⟨"/logs/realtime", some 401⟩]

/-- Witness for C1: with three concurrent 401s on three different
endpoints, the end state is cleared and on `/login`, and the session is
cleared at exactly one step and the location changes at exactly one
step. -/
theorem response_401_clears_session_and_redirects_once_holds :
    (b0c.storage "authToken" = some "tok" ∧ b0c.location ≠ "/login" ∧
     (∃ e ∈ es3c, e.status = some 401)) ∧
    ((processErrors es3c b0c).storage "authToken" = none ∧
     (processErrors es3c b0c).storage "userData" = none ∧
     (processErrors es3c b0c).location = "/login" ∧
     clearEvents es3c b0c = 1 ∧ navEvents es3c b0c = 1) :=
  ⟨⟨rfl, by decide, ⟨⟨"/dashboard/stats", some 401⟩, by simp [es3c], rfl⟩⟩,
   (response_401_clears_session_and_redirects_once es3c b0c "tok" rfl (by decide)
      ⟨⟨"/dashboard/stats", some 401⟩, by simp [es3c], rfl⟩).2⟩

/-! ## C7 -/

/-- Filtering out an id larger than every live id is a no-op. -/
lemma filter_fst_ne_of_lt (l : List (Nat × Nat)) (n : Nat)
    (h : ∀ e ∈ l, e.1 < n) :
    l.filter (fun e => e.1 ≠ n) = l := by
  apply List.filter_eq_self.mpr
  intro a ha
  simpa using Nat.ne_of_lt (h a ha)

/-- Clearing a freshly allocated interval restores the live-timer list. -/
lemma clear_fresh_interval (w : TimerWorld) (p : Nat) (hwf : w.wf) :
    (clearIntervalW w.nextId
      { nextId := w.nextId + 1, live := (w.nextId, p) :: w.live }).live = w.live := by
  simp only [clearIntervalW, List.filter_cons]
  simp [filter_fst_ne_of_lt w.live w.nextId hwf]
  intro a b hab
  exact Nat.ne_of_lt (hwf (a, b) hab)

/-- C7: each view component that starts a fixed-interval polling timer
when shown tears it down when hidden: running the mount effect of
`Dashboard` (30 s poll), `SessionMonitor` (2 s jitter) or `LogsViewer`
(5 s simulated stream, for either auto-refresh setting) and then its
cleanup leaves the live interval-timer list exactly as it was before the
view was shown — no per-view polling timer outlives its view. -/
theorem view_polling_timers_torn_down_on_hide (w : TimerWorld) (hwf : w.wf) :
    ((Dashboard_mount w).cleanup (Dashboard_mount w).world).live = w.live ∧
    ((SessionMonitor_mount w).cleanup (SessionMonitor_mount w).world).live = w.live ∧
    (∀ isAutoRefresh : Bool,
      ((LogsViewer_mount isAutoRefresh w).cleanup
        (LogsViewer_mount isAutoRefresh w).world).live = w.live) := by
  refine ⟨clear_fresh_interval w 30000 hwf, clear_fresh_interval w 2000 hwf, ?_⟩
  intro isAutoRefresh
  cases isAutoRefresh with
  | true => exact clear_fresh_interval w 5000 hwf
  | false => rfl

/-- Witness for C7 at the empty timer world. -/
theorem view_polling_timers_torn_down_on_hide_holds :
    (TimerWorld.mk 0 []).wf ∧
    ((Dashboard_mount ⟨0, []⟩).cleanup (Dashboard_mount ⟨0, []⟩).world).live = [] ∧
    ((LogsViewer_mount true ⟨0, []⟩).cleanup (LogsViewer_mount true ⟨0, []⟩).world).live = [] :=
  ⟨fun e he => absurd he (List.not_mem_nil e),
   (view_polling_timers_torn_down_on_hide ⟨0, []⟩
      (fun e he => absurd he (List.not_mem_nil e))).1,
   (view_polling_timers_torn_down_on_hide ⟨0, []⟩
      (fun e he => absurd he (List.not_mem_nil e))).2.2 true⟩
